import Mathlib

/-!
Verification of `src/intel_station_backend.py` (Neighborhood Intel Station backend).

Modelling conventions for the shallow embedding:

* Python floats that the program parses, stores and compares are modelled as
  exact rationals (`ℚ`); the transcendental haversine computation
  (`calculate_iss_distance`) is modelled over the reals (`ℝ`) with `Real.sin`,
  `Real.cos`, `Real.sqrt`, `Real.arctan` standing for the `math` library.
* Clock readings (`time.time()`) are rationals supplied as explicit arguments.
* Network fetches, `subprocess.run` calls and JSON payloads are oracles: each
  update function takes an explicit outcome value describing what the external
  world returned.  An exception raised by the runtime (network error, timeout,
  missing JSON key, unparsable number) is an explicit constructor of the
  outcome type, placed exactly where the Python code would raise, so that the
  `try/except` data flow of the source is reproduced faithfully, including
  partially applied writes that happen before a later statement raises.
* Python string operations (`strip`, `split`, `int(...)`, substring tests) are
  re-implemented over `List Char` so that every definition evaluates inside
  the kernel; `str[-10:]` and `list[:50]` become `lastN` and `List.take`.
-/

/-! ## Python-style primitive helpers -/

/-- Python whitespace test used by `str.strip()`. -/
def isPySpace (c : Char) : Bool :=
  c == ' ' || c == '\t' || c == '\n' || c == '\r' || c == '\x0b' || c == '\x0c'

/-- Strip leading and trailing whitespace from a character list. -/
def stripChars (l : List Char) : List Char :=
  ((l.dropWhile isPySpace).reverse.dropWhile isPySpace).reverse

/-- Python `str.strip()`. -/
def pyStrip (s : String) : String := String.mk (stripChars s.toList)

/-- Worker for `pySplit`, with explicit fuel so that it is structurally
recursive (the fuel is always the length of the scanned list). -/
def pySplitGo (sep : List Char) : ℕ → List Char → List Char → List (List Char)
  | _, [], acc => [acc.reverse]
  | 0, l, acc => [acc.reverse ++ l]
  | fuel+1, c :: rest, acc =>
    if sep.isPrefixOf (c :: rest) then
      acc.reverse :: pySplitGo sep fuel (List.drop (sep.length - 1) rest) []
    else pySplitGo sep fuel rest (c :: acc)

/-- Python `str.split(sep)` for a non-empty separator. -/
def pySplit (s : String) (sep : String) : List String :=
  (pySplitGo sep.toList s.toList.length s.toList []).map String.mk

/-- Value of a decimal digit character. -/
def digitVal (c : Char) : Option ℕ :=
  if c == '0' then some 0 else if c == '1' then some 1 else if c == '2' then some 2
  else if c == '3' then some 3 else if c == '4' then some 4 else if c == '5' then some 5
  else if c == '6' then some 6 else if c == '7' then some 7 else if c == '8' then some 8
  else if c == '9' then some 9 else none

/-- Accumulate decimal digits; `none` accumulator means no digit seen yet. -/
def digitsToNat : List Char → Option ℕ → Option ℕ
  | [], acc => acc
  | c :: rest, acc =>
    match digitVal c, acc with
    | some d, some n => digitsToNat rest (some (10 * n + d))
    | some d, none => digitsToNat rest (some d)
    | none, _ => none

/-- Python `int(s)` on an already-stripped string: optional sign followed by at
least one digit; `none` models the `ValueError` the source would raise. -/
def pyToIntOpt (s : String) : Option ℤ :=
  match s.toList with
  | [] => none
  | c :: rest =>
    if c == '-' then (digitsToNat rest none).map (fun n => -(n : ℤ))
    else if c == '+' then (digitsToNat rest none).map (fun n => (n : ℤ))
    else (digitsToNat (c :: rest) none).map (fun n => (n : ℤ))

/-- Worker for `strContains`. -/
def strContainsAux (needle : List Char) : List Char → Bool
  | [] => needle.isEmpty
  | c :: t => needle.isPrefixOf (c :: t) || strContainsAux needle t

/-- Python `needle in hay` substring test. -/
def strContains (hay needle : String) : Bool := strContainsAux needle.toList hay.toList

/-- Python `hay.startswith(pre)`. -/
def strStartsWith (s pre : String) : Bool := pre.toList.isPrefixOf s.toList

/-- Python `int(x)` on a number: truncation toward zero. -/
def pyInt (q : ℚ) : ℤ := Int.tdiv q.num q.den

/-- Python `a or b` on an optional number, where `None` and `0` are falsy. -/
def pyOr (a : Option ℚ) (b : ℚ) : ℚ :=
  match a with
  | none => b
  | some x => if x = 0 then b else x

/-- Python `l[-n:]`. -/
def lastN {α : Type} (n : ℕ) (l : List α) : List α := l.drop (l.length - n)

/-! ## The shared state dictionary (`state` in the source) -/

/-- `state['iss']`. -/
structure IssData where
  lat : ℚ
  lon : ℚ
  alt : ℚ
  velocity : ℚ
  visibility : String
  timestamp : ℤ
deriving DecidableEq

/-- One entry of `data['people']` in the crew payload. -/
structure CrewMember where
  name : String
  craft : String
deriving DecidableEq

/-- One record of `data['response']` in the pass-prediction payload; the
source stores these verbatim. -/
structure PassRec where
  risetime : ℤ
  duration : ℤ
deriving DecidableEq

/-- One parsed aircraft record as built by `update_aircraft`. -/
structure AircraftRec where
  icao24 : String
  callsign : String
  country : String
  lat : ℚ
  lon : ℚ
  alt_m : ℚ
  alt_ft : ℤ
  velocity_kt : ℤ
  heading : ℚ
  vertical_rate : ℚ
  on_ground : Option Bool
  squawk : Option String
deriving DecidableEq

/-- `state['last_update']`: a dict from source name to clock reading; a
missing key is `none`. -/
structure LastUpdate where
  iss_position : Option ℚ
  iss_crew : Option ℚ
  iss_passes : Option ℚ
  sdr : Option ℚ
  aircraft : Option ℚ
deriving DecidableEq

/-- The process-wide `state` dictionary. -/
structure IntelState where
  sdr_status : String
  sdr_log : List String
  iss : IssData
  iss_crew : List CrewMember
  iss_passes : List PassRec
  aircraft : List AircraftRec
  last_update : LastUpdate
deriving DecidableEq

/-- The initial value of `state` at module load. -/
def initState : IntelState :=
  { sdr_status := "unknown"
    sdr_log := []
    iss := { lat := 0, lon := 0, alt := 0, velocity := 0, visibility := "", timestamp := 0 }
    iss_crew := []
    iss_passes := []
    aircraft := []
    last_update := { iss_position := none, iss_crew := none, iss_passes := none,
                     sdr := none, aircraft := none } }

/-! ## `update_iss_position` -/

/-- The fields of the `iss-now.json` payload that the source reads, each
`Option` so that a missing key or an unparsable `float(...)` argument (which
raises at exactly that access) can be represented. -/
structure IssPayload where
  message : String
  latitude : Option ℚ
  longitude : Option ℚ
  timestamp : Option ℤ
deriving DecidableEq

/-- Outcome of the HTTP fetch in `update_iss_position`: either the request,
read or JSON decode raised, or a decoded payload was obtained. -/
inductive IssOutcome where
  | netFail
  | payload (p : IssPayload)
deriving DecidableEq

/-- `update_iss_position`, with the fetch outcome and the `time.time()`
reading as oracle arguments.  Field writes happen in source order, so a
payload whose latitude parses but whose longitude does not leaves a partial
write behind (the `except` clause swallows the error). -/
def updateIssPosition (st : IntelState) (o : IssOutcome) (t : ℚ) : IntelState :=
  match o with
  | .netFail => st
  | .payload p =>
    if p.message = ("success") then
      match p.latitude with
      | none => st
      | some la =>
        let st1 := { st with iss := { st.iss with lat := la } }
        match p.longitude with
        | none => st1
        | some lo =>
          let st2 := { st1 with iss := { st1.iss with lon := lo } }
          match p.timestamp with
          | none => st2
          | some ts =>
            { st2 with iss := { st2.iss with timestamp := ts },
                       last_update := { st2.last_update with iss_position := some t } }
    else st

/-! ## `update_iss_crew` -/

/-- Outcome of the crew fetch: network/JSON failure, or a payload with its
message and (if well-formed) the people list.  A malformed `people` entry
makes the whole list comprehension raise before any assignment, which is the
`none` case. -/
inductive CrewOutcome where
  | netFail
  | payload (message : String) (people : Option (List CrewMember))
deriving DecidableEq

/-- `update_iss_crew`. -/
def updateIssCrew (st : IntelState) (o : CrewOutcome) (t : ℚ) : IntelState :=
  match o with
  | .netFail => st
  | .payload msg people =>
    if msg = ("success") then
      match people with
      | none => st
      | some l =>
        { st with iss_crew := l.filter (fun p => decide (p.craft = ("ISS"))),
                  last_update := { st.last_update with iss_crew := some t } }
    else st

/-! ## `update_iss_passes` -/

/-- Outcome of the pass-prediction fetch. -/
inductive PassesOutcome where
  | netFail
  | payload (message : String) (response : Option (List PassRec))
deriving DecidableEq

/-- `update_iss_passes`. -/
def updateIssPasses (st : IntelState) (o : PassesOutcome) (t : ℚ) : IntelState :=
  match o with
  | .netFail => st
  | .payload msg response =>
    if msg = ("success") then
      match response with
      | none => st
      | some l =>
        { st with iss_passes := l,
                  last_update := { st.last_update with iss_passes := some t } }
    else st

/-! ## `update_sdr_status` -/

/-- Outcome of the `subprocess.run(['ssh', ...])` call in
`update_sdr_status`: an exception (timeout, launch failure), or a completed
process with its exit code and captured stdout. -/
inductive SdrOutcome where
  | exn
  | done (returncode : ℤ) (stdout : String)
deriving DecidableEq

/-- `parts[0].strip().split('\n') if parts[0].strip() else []` of the source,
where `parts = stdout.split('---SDR_STATUS---')`. -/
def sdrLogLines (stdout : String) : List String :=
  let head := ((pySplit stdout ("---SDR_STATUS---")).get? 0).getD ("")
  if pyStrip head = ("") then [] else pySplit (pyStrip head) ("\n")

/-- `int(parts[1].strip()) if len(parts) > 1 else 0` of the source; `none`
models the `ValueError` raised by `int(...)`. -/
def sdrRunning (stdout : String) : Option ℤ :=
  let parts := pySplit stdout ("---SDR_STATUS---")
  if parts.length > 1 then pyToIntOpt (pyStrip ((parts.get? 1).getD (""))) else some 0

/-- The status string chosen from the last log line and the running count,
mirroring the `if running > 0: ... else offline` cascade of the source. -/
def classifySdr (last_line : String) (running : ℤ) : String :=
  if running > 0 then
    if strContains last_line ("Recording") then ("recording")
    else if strContains last_line ("Sleeping") then ("sleeping")
    else if strContains last_line ("Starting capture") then ("armed")
    else if strContains last_line ("Waiting") then ("armed")
    else ("running")
  else ("offline")

/-- `update_sdr_status`.  On an exception (including one raised by
`int(parts[1].strip())`, which happens before `state['sdr_log']` is written)
the `except` clause sets the status to `unreachable` and touches nothing
else; a non-zero exit code skips the whole `if` body and touches nothing. -/
def updateSdrStatus (st : IntelState) (o : SdrOutcome) (t : ℚ) : IntelState :=
  match o with
  | .exn => { st with sdr_status := "unreachable" }
  | .done rc stdout =>
    if rc = 0 then
      match sdrRunning stdout with
      | none => { st with sdr_status := "unreachable" }
      | some running =>
        let log_lines := sdrLogLines stdout
        { st with sdr_log := lastN 10 log_lines,
                  sdr_status := classifySdr ((log_lines.getLast?).getD ("")) running,
                  last_update := { st.last_update with sdr := some t } }
    else st

/-! ## `update_aircraft` -/

/-- One upstream OpenSky state vector (`s` in the source), indices as in the
flat array: `s[0]` icao24, `s[1]` callsign, `s[2]` country, `s[5]` longitude,
`s[6]` latitude, `s[7]` barometric altitude, `s[8]` on-ground, `s[9]`
velocity, `s[10]` heading, `s[11]` vertical rate, `s[13]` geometric altitude,
`s[14]` squawk. -/
structure ACState where
  icao24 : String
  callsign : Option String
  country : String
  lon : Option ℚ
  lat : Option ℚ
  baro_alt : Option ℚ
  on_ground : Option Bool
  velocity : Option ℚ
  heading : Option ℚ
  vertical_rate : Option ℚ
  geo_alt : Option ℚ
  squawk : Option String
deriving DecidableEq

/-- The record the loop body appends when `s[5]` and `s[6]` are not `None`;
`none` when the position guard drops the record. -/
def parseACRec (s : ACState) : Option AircraftRec :=
  match s.lon, s.lat with
  | some lo, some la =>
    some { icao24 := s.icao24
           callsign := pyStrip (s.callsign.getD (""))
           country := s.country
           lat := la
           lon := lo
           alt_m := pyOr s.baro_alt (pyOr s.geo_alt 0)
           alt_ft := pyInt (pyOr s.baro_alt (pyOr s.geo_alt 0) * (3.281 : ℚ))
           velocity_kt := pyInt (pyOr s.velocity 0 * (1.944 : ℚ))
           heading := pyOr s.heading 0
           vertical_rate := pyOr s.vertical_rate 0
           on_ground := s.on_ground
           squawk := s.squawk }
  | _, _ => none

/-- The list built by the `for s in data['states'][:50]` loop. -/
def aircraftRecords (states : List ACState) : List AircraftRec :=
  (states.take 50).filterMap parseACRec

/-- Outcome of the aircraft fetch: exception, or a decoded payload whose
`states` key is absent/null (`none`) or a list. -/
inductive AircraftOutcome where
  | netFail
  | payload (states : Option (List ACState))
deriving DecidableEq

/-- `update_aircraft`.  A missing/empty `states` value is falsy, so the loop
is skipped and the pre-built empty list is stored; the list and the
`last_update` stamp are always written on the non-exception path. -/
def updateAircraft (st : IntelState) (o : AircraftOutcome) (t : ℚ) : IntelState :=
  match o with
  | .netFail => st
  | .payload statesO =>
    { st with aircraft := aircraftRecords (statesO.getD []),
              last_update := { st.last_update with aircraft := some t } }

/-! ## `push_to_epaper` and `push_satellite_image` -/

/-- Outcome of one `subprocess.run` invocation of `ssh`/`scp`:
an exception carrying `str(e)`, or a completed process. -/
inductive RunOutcome where
  | exn (msg : String)
  | done (returncode : ℤ) (stdout : String) (stderr : String)
deriving DecidableEq

/-- The dictionary returned by the push operations: `success` plus an
optional `message` key and an optional `error` key (the source never sets
both). -/
structure PushResult where
  success : Bool
  message : Option String
  error : Option String
deriving DecidableEq

/-- `push_to_epaper`, as a function of the outcomes of its two remote calls.
The second component records whether the display-trigger `ssh` command was
actually issued. -/
def pushToEpaper (scp ssh : RunOutcome) : PushResult × Bool :=
  match scp with
  | .exn m => ({ success := false, message := none, error := some m }, false)
  | .done rc _ stderr =>
    if rc ≠ 0 then
      ({ success := false, message := none, error := some (("SCP failed: ") ++ stderr) }, false)
    else
      match ssh with
      | .exn m => ({ success := false, message := none, error := some m }, true)
      | .done rc2 _ stderr2 =>
        if rc2 = 0 then
          ({ success := true, message := some ("Image pushed to e-Paper"), error := none }, true)
        else
          ({ success := false, message := none,
             error := some (("Display failed: ") ++ stderr2) }, true)

/-- The two phases of a push. -/
inductive PushStage where
  | transfer
  | remoteTrigger
deriving DecidableEq

/-- The only stage information recoverable from a `PushResult` value: the
fixed prefix that each failure branch of `push_to_epaper` bakes into the
error string.  Results whose error carries neither prefix identify no
stage. -/
def resultStage (r : PushResult) : Option PushStage :=
  match r.error with
  | none => none
  | some e =>
    if strStartsWith e ("SCP failed: ") then some PushStage.transfer
    else if strStartsWith e ("Display failed: ") then some PushStage.remoteTrigger
    else none

/-- `push_satellite_image`, as a function of the outcomes of its remote
listing command, its download `scp`, and the two calls inside
`push_to_epaper`.  The second component records whether `push_to_epaper`
was invoked. -/
def pushSatelliteImage (listing download scp ssh : RunOutcome) : PushResult × Bool :=
  match listing with
  | .exn m => ({ success := false, message := none, error := some m }, false)
  | .done rc out _ =>
    if rc ≠ 0 ∨ pyStrip out = ("") then
      ({ success := false, message := none, error := some ("No satellite images found") }, false)
    else
      match download with
      | .exn m => ({ success := false, message := none, error := some m }, false)
      | .done _ _ _ => ((pushToEpaper scp ssh).1, true)

/-! ## The background updater loop -/

/-- The oracle inputs consumed by one iteration of `background_updater`:
one outcome and one `time.time()` stamp per potentially invoked update, and
the `now = time.time()` reading used by the cadence gates. -/
structure IterInput where
  issO : IssOutcome
  issT : ℚ
  sdrO : SdrOutcome
  sdrT : ℚ
  now : ℚ
  crewO : CrewOutcome
  crewT : ℚ
  passesO : PassesOutcome
  passesT : ℚ
  acO : AircraftOutcome
  acT : ℚ

/-- One iteration of the `while True` body of `background_updater`.  The
second component records whether `update_iss_crew` was invoked. -/
def schedulerIter (st : IntelState) (i : IterInput) : IntelState × Bool :=
  let st1 := updateIssPosition st i.issO i.issT
  let st2 := updateSdrStatus st1 i.sdrO i.sdrT
  let crewDue := decide (i.now - (st2.last_update.iss_crew.getD 0) > 600)
  let st3 := if crewDue then updateIssCrew st2 i.crewO i.crewT else st2
  let st4 :=
    if i.now - (st3.last_update.iss_passes.getD 0) > 300 then
      updateIssPasses st3 i.passesO i.passesT
    else st3
  let st5 :=
    if i.now - (st4.last_update.aircraft.getD 0) > 15 then
      updateAircraft st4 i.acO i.acT
    else st4
  (st5, crewDue)

/-- Run the updater loop over a list of iteration inputs, collecting the
crew-invocation flag of every iteration. -/
def schedulerRun (st : IntelState) : List IterInput → IntelState × List Bool
  | [] => (st, [])
  | i :: rest =>
    let p := schedulerIter st i
    let q := schedulerRun p.1 rest
    (q.1, p.2 :: q.2)

/-- States reachable from the module-load state by any sequence of update
calls with any oracle outcomes: this covers everything `background_updater`
and the initial fetches in `main` can produce. -/
inductive Reachable : IntelState → Prop where
  | init : Reachable initState
  | iss (st : IntelState) (o : IssOutcome) (t : ℚ) :
      Reachable st → Reachable (updateIssPosition st o t)
  | crew (st : IntelState) (o : CrewOutcome) (t : ℚ) :
      Reachable st → Reachable (updateIssCrew st o t)
  | passes (st : IntelState) (o : PassesOutcome) (t : ℚ) :
      Reachable st → Reachable (updateIssPasses st o t)
  | sdr (st : IntelState) (o : SdrOutcome) (t : ℚ) :
      Reachable st → Reachable (updateSdrStatus st o t)
  | aircraft (st : IntelState) (o : AircraftOutcome) (t : ℚ) :
      Reachable st → Reachable (updateAircraft st o t)

/-! ## `calculate_iss_distance` (haversine) -/

/-- `math.atan2`. -/
noncomputable def atan2 (y x : ℝ) : ℝ :=
  if 0 < x then Real.arctan (y / x)
  else if x < 0 then
    (if 0 ≤ y then Real.arctan (y / x) + Real.pi else Real.arctan (y / x) - Real.pi)
  else if 0 < y then Real.pi / 2
  else if y < 0 then -(Real.pi / 2)
  else 0

/-- The haversine intermediate
`a = sin(dlat/2)**2 + cos(lat1)*cos(lat2)*sin(dlon/2)**2`
of the source, with the `math.radians` conversions applied to the four
degree-valued inputs. -/
noncomputable def havA (lat1 lon1 lat2 lon2 : ℝ) : ℝ :=
  Real.sin ((lat2 * Real.pi / 180 - lat1 * Real.pi / 180) / 2) ^ 2 +
    Real.cos (lat1 * Real.pi / 180) * Real.cos (lat2 * Real.pi / 180) *
      Real.sin ((lon2 * Real.pi / 180 - lon1 * Real.pi / 180) / 2) ^ 2

/-- The full haversine distance of `calculate_iss_distance`:
`c = 2*atan2(sqrt(a), sqrt(1-a))`, result `6371 * c` kilometres. -/
noncomputable def haversineKm (lat1 lon1 lat2 lon2 : ℝ) : ℝ :=
  6371 * (2 * atan2 (Real.sqrt (havA lat1 lon1 lat2 lon2))
    (Real.sqrt (1 - havA lat1 lon1 lat2 lon2)))

/-- `calculate_iss_distance`: distance from the configured observer location
to the stored orbital ground point. -/
noncomputable def calculateIssDistance (st : IntelState) : ℝ :=
  haversineKm (29.4953) (-95.1547) ((st.iss.lat : ℝ)) ((st.iss.lon : ℝ))

/-! ## Helper lemmas: fields untouched by each update -/

/-- Fields of the state that `update_iss_position` never writes. -/
lemma updateIssPosition_untouched (st : IntelState) (o : IssOutcome) (t : ℚ) :
    (updateIssPosition st o t).sdr_log = st.sdr_log ∧
    (updateIssPosition st o t).sdr_status = st.sdr_status ∧
    (updateIssPosition st o t).iss_crew = st.iss_crew ∧
    (updateIssPosition st o t).iss_passes = st.iss_passes ∧
    (updateIssPosition st o t).aircraft = st.aircraft ∧
    (updateIssPosition st o t).last_update.iss_crew = st.last_update.iss_crew ∧
    (updateIssPosition st o t).last_update.iss_passes = st.last_update.iss_passes ∧
    (updateIssPosition st o t).last_update.aircraft = st.last_update.aircraft ∧
    (updateIssPosition st o t).last_update.sdr = st.last_update.sdr := by
  rcases o with _ | ⟨msg, la, lo, ts⟩
  · exact ⟨rfl, rfl, rfl, rfl, rfl, rfl, rfl, rfl, rfl⟩
  · by_cases hm : msg = ("success") <;>
      rcases la with _ | la <;> rcases lo with _ | lo <;> rcases ts with _ | ts <;>
        simp [updateIssPosition, hm]

/-- Fields of the state that `update_iss_crew` never writes. -/
lemma updateIssCrew_untouched (st : IntelState) (o : CrewOutcome) (t : ℚ) :
    (updateIssCrew st o t).sdr_log = st.sdr_log ∧
    (updateIssCrew st o t).sdr_status = st.sdr_status ∧
    (updateIssCrew st o t).iss = st.iss ∧
    (updateIssCrew st o t).iss_passes = st.iss_passes ∧
    (updateIssCrew st o t).aircraft = st.aircraft ∧
    (updateIssCrew st o t).last_update.iss_position = st.last_update.iss_position ∧
    (updateIssCrew st o t).last_update.iss_passes = st.last_update.iss_passes ∧
    (updateIssCrew st o t).last_update.aircraft = st.last_update.aircraft ∧
    (updateIssCrew st o t).last_update.sdr = st.last_update.sdr := by
  rcases o with _ | ⟨msg, people⟩
  · exact ⟨rfl, rfl, rfl, rfl, rfl, rfl, rfl, rfl, rfl⟩
  · by_cases hm : msg = ("success") <;> rcases people with _ | l <;>
      simp [updateIssCrew, hm]

/-- Fields of the state that `update_iss_passes` never writes. -/
lemma updateIssPasses_untouched (st : IntelState) (o : PassesOutcome) (t : ℚ) :
    (updateIssPasses st o t).sdr_log = st.sdr_log ∧
    (updateIssPasses st o t).sdr_status = st.sdr_status ∧
    (updateIssPasses st o t).iss = st.iss ∧
    (updateIssPasses st o t).iss_crew = st.iss_crew ∧
    (updateIssPasses st o t).aircraft = st.aircraft ∧
    (updateIssPasses st o t).last_update.iss_position = st.last_update.iss_position ∧
    (updateIssPasses st o t).last_update.iss_crew = st.last_update.iss_crew ∧
    (updateIssPasses st o t).last_update.aircraft = st.last_update.aircraft ∧
    (updateIssPasses st o t).last_update.sdr = st.last_update.sdr := by
  rcases o with _ | ⟨msg, response⟩
  · exact ⟨rfl, rfl, rfl, rfl, rfl, rfl, rfl, rfl, rfl⟩
  · by_cases hm : msg = ("success") <;> rcases response with _ | l <;>
      simp [updateIssPasses, hm]

/-- Fields of the state that `update_sdr_status` never writes. -/
lemma updateSdrStatus_untouched (st : IntelState) (o : SdrOutcome) (t : ℚ) :
    (updateSdrStatus st o t).iss = st.iss ∧
    (updateSdrStatus st o t).iss_crew = st.iss_crew ∧
    (updateSdrStatus st o t).iss_passes = st.iss_passes ∧
    (updateSdrStatus st o t).aircraft = st.aircraft ∧
    (updateSdrStatus st o t).last_update.iss_position = st.last_update.iss_position ∧
    (updateSdrStatus st o t).last_update.iss_crew = st.last_update.iss_crew ∧
    (updateSdrStatus st o t).last_update.iss_passes = st.last_update.iss_passes ∧
    (updateSdrStatus st o t).last_update.aircraft = st.last_update.aircraft := by
  rcases o with _ | ⟨rc, stdout⟩
  · exact ⟨rfl, rfl, rfl, rfl, rfl, rfl, rfl, rfl⟩
  · by_cases hrc : rc = 0
    · rcases hr : sdrRunning stdout with _ | r <;> simp [updateSdrStatus, hrc, hr]
    · simp [updateSdrStatus, hrc]

/-- Fields of the state that `update_aircraft` never writes. -/
lemma updateAircraft_untouched (st : IntelState) (o : AircraftOutcome) (t : ℚ) :
    (updateAircraft st o t).sdr_log = st.sdr_log ∧
    (updateAircraft st o t).sdr_status = st.sdr_status ∧
    (updateAircraft st o t).iss = st.iss ∧
    (updateAircraft st o t).iss_crew = st.iss_crew ∧
    (updateAircraft st o t).iss_passes = st.iss_passes ∧
    (updateAircraft st o t).last_update.iss_position = st.last_update.iss_position ∧
    (updateAircraft st o t).last_update.iss_crew = st.last_update.iss_crew ∧
    (updateAircraft st o t).last_update.iss_passes = st.last_update.iss_passes ∧
    (updateAircraft st o t).last_update.sdr = st.last_update.sdr := by
  rcases o with _ | states
  · exact ⟨rfl, rfl, rfl, rfl, rfl, rfl, rfl, rfl, rfl⟩
  · simp [updateAircraft]

/-! ## C1: failed fetches and state preservation -/

/-- Failure of the orbital-position fetch: network/JSON exception, non-success
envelope, or any of the three accessed fields missing/unparsable. -/
def issFetchFailed (o : IssOutcome) : Prop :=
  match o with
  | .netFail => True
  | .payload p =>
    p.message ≠ ("success") ∨ p.latitude = none ∨ p.longitude = none ∨ p.timestamp = none

/-- Failure of the orbital-position fetch occurring before the first field
write (`state['iss']['lat'] = ...`) is executed. -/
def issFailedBeforeWrite (o : IssOutcome) : Prop :=
  match o with
  | .netFail => True
  | .payload p => p.message ≠ ("success") ∨ p.latitude = none

/-- Failure of the crew fetch. -/
def crewFetchFailed (o : CrewOutcome) : Prop :=
  match o with
  | .netFail => True
  | .payload m p => m ≠ ("success") ∨ p = none

/-- Failure of the pass-prediction fetch. -/
def passesFetchFailed (o : PassesOutcome) : Prop :=
  match o with
  | .netFail => True
  | .payload m p => m ≠ ("success") ∨ p = none

/-- C1 (amended): a failed fetch never touches `last_update`, and for the
crew, pass and aircraft sources it leaves the whole state unchanged, as it
does for an orbital-position failure that occurs before the first field
write; however the orbital-position updater writes its fields one at a time
(a payload whose latitude parses but whose longitude does not leaves a
partial latitude write behind), and the device-log updater reacts to an
exception — either from the remote command or from `int(...)` on its
output — by overwriting the status field with `unreachable`, while leaving
the log and `last_update` untouched, and reacts to a non-zero exit code by
changing nothing at all. -/
theorem fetch_failure_preservation (st : IntelState) (t : ℚ) :
    (∀ o, issFetchFailed o → (updateIssPosition st o t).last_update = st.last_update) ∧
    (∀ o, issFailedBeforeWrite o → updateIssPosition st o t = st) ∧
    (∀ o, crewFetchFailed o → updateIssCrew st o t = st) ∧
    (∀ o, passesFetchFailed o → updateIssPasses st o t = st) ∧
    updateAircraft st AircraftOutcome.netFail t = st ∧
    (∀ rc stdout, rc ≠ 0 → updateSdrStatus st (SdrOutcome.done rc stdout) t = st) ∧
    ((updateSdrStatus st SdrOutcome.exn t).sdr_log = st.sdr_log ∧
      (updateSdrStatus st SdrOutcome.exn t).last_update = st.last_update) ∧
    (∀ stdout, sdrRunning stdout = none →
      (updateSdrStatus st (SdrOutcome.done 0 stdout) t).sdr_log = st.sdr_log ∧
      (updateSdrStatus st (SdrOutcome.done 0 stdout) t).last_update = st.last_update) := by
  refine ⟨?_, ?_, ?_, ?_, rfl, ?_, ⟨rfl, rfl⟩, ?_⟩
  · intro o ho
    rcases o with _ | ⟨msg, la, lo, ts⟩
    · rfl
    · simp only [issFetchFailed] at ho
      by_cases hm : msg = ("success") <;>
        rcases la with _ | la <;> rcases lo with _ | lo <;> rcases ts with _ | ts <;>
          simp_all [updateIssPosition]
  · intro o ho
    rcases o with _ | ⟨msg, la, lo, ts⟩
    · rfl
    · simp only [issFailedBeforeWrite] at ho
      by_cases hm : msg = ("success") <;> rcases la with _ | la <;>
        simp_all [updateIssPosition]
  · intro o ho
    rcases o with _ | ⟨msg, people⟩
    · rfl
    · simp only [crewFetchFailed] at ho
      by_cases hm : msg = ("success") <;> rcases people with _ | l <;>
        simp_all [updateIssCrew]
  · intro o ho
    rcases o with _ | ⟨msg, response⟩
    · rfl
    · simp only [passesFetchFailed] at ho
      by_cases hm : msg = ("success") <;> rcases response with _ | l <;>
        simp_all [updateIssPasses]
  · intro rc stdout h
    simp [updateSdrStatus, h]
  · intro stdout h
    simp [updateSdrStatus, h]

/-- C1 witness: concrete instances of the preservation statement. -/
theorem fetch_failure_preservation_witness :
    updateIssPosition initState IssOutcome.netFail 5 = initState ∧
    updateSdrStatus initState (SdrOutcome.done 1 ("boom")) 5 = initState := by
  obtain ⟨-, h2, -, -, -, h6, -, -⟩ := fetch_failure_preservation initState 5
  exact ⟨h2 IssOutcome.netFail trivial, h6 1 ("boom") (by decide)⟩

/-- C1 counterexample: the claim as stated is false — an exception during the
device-log fetch overwrites the status field with the error value
`unreachable`, and a malformed orbital-position payload whose latitude parses
but whose longitude is missing leaves a partially overwritten position. -/
theorem fetch_failure_preservation_cex :
    (updateSdrStatus initState SdrOutcome.exn 5).sdr_status ≠ initState.sdr_status ∧
    (updateIssPosition initState
      (IssOutcome.payload { message := "success", latitude := some 42,
                            longitude := none, timestamp := none }) 5).iss ≠ initState.iss := by
  decide

/-! ## C2: device-status classification -/

/-- C2 (amended): an exception from the remote command (timeout, connection
failure, or `int(...)` raising on its output) sets the status to
`unreachable` and touches neither the log nor `last_update`; a non-zero exit
code leaves the whole state unchanged (in particular the status does not
become `unreachable`); on success the stored status is the classification of
the last parsed log line, which — when the running count is positive —
matches substrings in priority order `Recording`, `Sleeping`,
`Starting capture`, `Waiting`, falling back to `running`; a running count of
zero yields `offline` regardless of the log content. -/
theorem sdr_status_classification (st : IntelState) (t : ℚ) :
    ((updateSdrStatus st SdrOutcome.exn t).sdr_status = ("unreachable") ∧
      (updateSdrStatus st SdrOutcome.exn t).sdr_log = st.sdr_log ∧
      (updateSdrStatus st SdrOutcome.exn t).last_update = st.last_update) ∧
    (∀ rc stdout, rc ≠ 0 → updateSdrStatus st (SdrOutcome.done rc stdout) t = st) ∧
    (∀ stdout, sdrRunning stdout = none →
      (updateSdrStatus st (SdrOutcome.done 0 stdout) t).sdr_status = ("unreachable") ∧
      (updateSdrStatus st (SdrOutcome.done 0 stdout) t).sdr_log = st.sdr_log ∧
      (updateSdrStatus st (SdrOutcome.done 0 stdout) t).last_update = st.last_update) ∧
    (∀ stdout r, sdrRunning stdout = some r →
      (updateSdrStatus st (SdrOutcome.done 0 stdout) t).sdr_status =
        classifySdr (((sdrLogLines stdout).getLast?).getD ("")) r) ∧
    (∀ l, classifySdr l 0 = ("offline")) ∧
    (∀ l r, 0 < r →
      (strContains l ("Recording") = true → classifySdr l r = ("recording")) ∧
      (strContains l ("Recording") = false → strContains l ("Sleeping") = true →
        classifySdr l r = ("sleeping")) ∧
      (strContains l ("Recording") = false → strContains l ("Sleeping") = false →
        (strContains l ("Starting capture") = true ∨ strContains l ("Waiting") = true) →
        classifySdr l r = ("armed")) ∧
      (strContains l ("Recording") = false → strContains l ("Sleeping") = false →
        strContains l ("Starting capture") = false → strContains l ("Waiting") = false →
        classifySdr l r = ("running"))) := by
  refine ⟨⟨rfl, rfl, rfl⟩, ?_, ?_, ?_, ?_, ?_⟩
  · intro rc stdout h
    simp [updateSdrStatus, h]
  · intro stdout h
    simp [updateSdrStatus, h]
  · intro stdout r h
    simp [updateSdrStatus, h]
  · intro l
    simp [classifySdr]
  · intro l r hr
    have hgt : r > 0 := hr
    refine ⟨?_, ?_, ?_, ?_⟩
    · intro h1
      simp [classifySdr, hgt, h1]
    · intro h1 h2
      simp [classifySdr, hgt, h1, h2]
    · rintro h1 h2 (h3 | h3)
      · simp [classifySdr, hgt, h1, h2, h3]
      · by_cases h4 : strContains l ("Starting capture") = true <;>
          simp [classifySdr, hgt, h1, h2, h3, h4]
    · intro h1 h2 h3 h4
      simp [classifySdr, hgt, h1, h2, h3, h4]

/-- C2 witness: a concrete success outcome whose log tail ends in a
`Recording` line, and the concrete classification equation it yields. -/
theorem sdr_status_classification_witness :
    sdrRunning ("Waiting for pass\nRecording NOAA-19\n---SDR_STATUS---\n1") = some 1 ∧
    (updateSdrStatus initState
        (SdrOutcome.done 0 ("Waiting for pass\nRecording NOAA-19\n---SDR_STATUS---\n1")) 7).sdr_status =
      classifySdr (((sdrLogLines ("Waiting for pass\nRecording NOAA-19\n---SDR_STATUS---\n1")).getLast?).getD ("")) 1 := by
  refine ⟨by decide, ?_⟩
  exact (sdr_status_classification initState 7).2.2.2.1
    ("Waiting for pass\nRecording NOAA-19\n---SDR_STATUS---\n1") 1 (by decide)

/-- C2 counterexample: the claim as stated is false — a remote command that
fails with a non-zero exit code does *not* set the status to `unreachable`;
it leaves the state, including the prior status, entirely unchanged. -/
theorem sdr_status_classification_cex :
    updateSdrStatus initState (SdrOutcome.done 1 ("ssh: connect refused")) 9 = initState ∧
    (updateSdrStatus initState (SdrOutcome.done 1 ("ssh: connect refused")) 9).sdr_status ≠
      ("unreachable") := by
  decide

/-! ## C7: orbital-position range invariant -/

/-- The latitude/longitude range invariant claimed for `state['iss']`. -/
def issInvariant (st : IntelState) : Prop :=
  -90 ≤ st.iss.lat ∧ st.iss.lat ≤ 90 ∧ -180 ≤ st.iss.lon ∧ st.iss.lon ≤ 180

/-- An orbital-position outcome whose parsed coordinates (when present) are
in range. -/
def issPayloadInRange (o : IssOutcome) : Prop :=
  match o with
  | .netFail => True
  | .payload p =>
    (∀ la, p.latitude = some la → -90 ≤ la ∧ la ≤ 90) ∧
    (∀ lo, p.longitude = some lo → -180 ≤ lo ∧ lo ≤ 180)

/-- C7 (amended): the default state satisfies the range invariant, and
`update_iss_position` preserves it for every payload whose parsed
coordinates are in range; the code performs no range validation of its own,
so preservation for arbitrary payloads fails (see the counterexample). -/
theorem iss_range_invariant (st : IntelState) (o : IssOutcome) (t : ℚ)
    (hst : issInvariant st) (ho : issPayloadInRange o) :
    issInvariant initState ∧ issInvariant (updateIssPosition st o t) := by
  constructor
  · unfold issInvariant
    decide
  · obtain ⟨a1, a2, a3, a4⟩ := hst
    rcases o with _ | ⟨msg, la, lo, ts⟩
    · exact ⟨a1, a2, a3, a4⟩
    · obtain ⟨hla, hlo⟩ := ho
      by_cases hm : msg = ("success") <;>
        rcases la with _ | la <;> rcases lo with _ | lo <;> rcases ts with _ | ts <;>
          simp_all [updateIssPosition, issInvariant]

/-- C7 witness: the invariant holds in the default state and after an
in-range successful update. -/
theorem iss_range_invariant_witness :
    issInvariant initState ∧
    issInvariant (updateIssPosition initState
      (IssOutcome.payload { message := "success", latitude := some 51,
                            longitude := some 0, timestamp := some 1700000000 }) 1) := by
  have h := iss_range_invariant initState
    (IssOutcome.payload { message := "success", latitude := some 51,
                          longitude := some 0, timestamp := some 1700000000 }) 1
    (by unfold issInvariant; decide)
    (by unfold issPayloadInRange
        refine ⟨?_, ?_⟩ <;> intro x hx <;> injection hx with hx <;> subst hx <;> decide)
  exact ⟨h.1, h.2⟩

/-- C7 counterexample: the claim as stated is false — the updater performs no
validation, so an out-of-range upstream payload (latitude 1000) drives the
stored latitude out of range. -/
theorem iss_range_invariant_cex :
    issInvariant initState ∧
    ¬ issInvariant (updateIssPosition initState
      (IssOutcome.payload { message := "success", latitude := some 1000,
                            longitude := some 0, timestamp := some 0 }) 0) := by
  unfold issInvariant
  decide

/-! ## C3: transfer-stage failure in `push_to_epaper` -/

/-- A list is a Boolean prefix of itself followed by anything. -/
lemma isPrefixOf_append (l t : List Char) : l.isPrefixOf (l ++ t) = true := by
  induction l with
  | nil => simp [List.isPrefixOf]
  | cons c cs ih => simp [List.isPrefixOf, ih]

/-- A string starts with any string it extends. -/
lemma strStartsWith_append (pre rest : String) : strStartsWith (pre ++ rest) pre = true := by
  rcases pre with ⟨pl⟩
  rcases rest with ⟨rl⟩
  show pl.isPrefixOf (pl ++ rl) = true
  exact isPrefixOf_append pl rl

/-- Failure of one remote command: an exception, or a non-zero exit code. -/
def runFailed (o : RunOutcome) : Prop :=
  match o with
  | .exn _ => True
  | .done rc _ _ => rc ≠ 0

/-- C3 (amended): whenever the copy step fails — non-zero exit or transport
exception — the display-trigger command is never executed and the result is
a failure; on a non-zero exit the error value is the remote stderr behind
the fixed `SCP failed: ` prefix, which is the only stage tag the result
carries; on a transport exception the error value is the bare exception
message, which carries no stage tag (see the counterexample). -/
theorem push_transfer_failure (scp ssh : RunOutcome) (h : runFailed scp) :
    (pushToEpaper scp ssh).2 = false ∧
    (pushToEpaper scp ssh).1.success = false ∧
    (∀ rc out err, scp = RunOutcome.done rc out err →
      (pushToEpaper scp ssh).1.error = some (("SCP failed: ") ++ err) ∧
      resultStage (pushToEpaper scp ssh).1 = some PushStage.transfer) ∧
    (∀ m, scp = RunOutcome.exn m → (pushToEpaper scp ssh).1.error = some m) := by
  rcases scp with m | ⟨rc, out, err⟩
  · refine ⟨rfl, rfl, ?_, ?_⟩
    · intro rc out err heq
      cases heq
    · intro m2 heq
      injection heq with h1
      subst h1
      rfl
  · have hrc : rc ≠ 0 := h
    refine ⟨?_, ?_, ?_, ?_⟩
    · simp [pushToEpaper, hrc]
    · simp [pushToEpaper, hrc]
    · intro rc2 out2 err2 heq
      injection heq with e1 e2 e3
      subst e3
      exact ⟨by simp [pushToEpaper, hrc],
             by simp [pushToEpaper, hrc, resultStage, strStartsWith_append]⟩
    · intro m heq
      cases heq

/-- C3 witness: a concrete non-zero-exit copy failure. -/
theorem push_transfer_failure_witness :
    (pushToEpaper (RunOutcome.done 1 ("") ("permission denied"))
        (RunOutcome.done 0 ("") (""))).2 = false ∧
    (pushToEpaper (RunOutcome.done 1 ("") ("permission denied"))
        (RunOutcome.done 0 ("") (""))).1.error =
      some (("SCP failed: ") ++ ("permission denied")) := by
  have h := push_transfer_failure (RunOutcome.done 1 ("") ("permission denied"))
    (RunOutcome.done 0 ("") ("")) (by show (1 : ℤ) ≠ 0; decide)
  exact ⟨h.1, (h.2.2.1 1 ("") ("permission denied") rfl).1⟩

/-- C3 counterexample: the claim as stated is false — a transport exception
in the copy step produces a result that carries no `transfer` stage tag at
all; it is byte-for-byte identical to the result of a trigger-stage
exception, so the returned value cannot be "tagged with stage = transfer". -/
theorem push_transfer_failure_cex :
    (pushToEpaper (RunOutcome.exn ("timed out")) (RunOutcome.done 0 ("") (""))).1 =
      (pushToEpaper (RunOutcome.done 0 ("") ("")) (RunOutcome.exn ("timed out"))).1 ∧
    resultStage (pushToEpaper (RunOutcome.exn ("timed out"))
      (RunOutcome.done 0 ("") (""))).1 = none := by
  decide

/-! ## C6: `push_satellite_image` -/

/-- C6 (amended): a listing command that exits non-zero or returns only
whitespace yields the distinct `No satellite images found` failure and no
push; after a successful non-empty listing the push proceeds whatever the
download's exit code was; but an *exception* in the listing or in the
download (e.g. a timeout) is swallowed by the outer handler and yields a
generic failure carrying the exception message, without pushing — so a
download failure by exception does abort the push. -/
theorem satellite_push_pipeline (listing download scp ssh : RunOutcome) :
    (∀ rc out err, listing = RunOutcome.done rc out err → (rc ≠ 0 ∨ pyStrip out = ("")) →
      pushSatelliteImage listing download scp ssh =
        ({ success := false, message := none,
           error := some ("No satellite images found") }, false)) ∧
    (∀ rc out err rc2 o2 e2, listing = RunOutcome.done rc out err → rc = 0 →
      pyStrip out ≠ ("") → download = RunOutcome.done rc2 o2 e2 →
      pushSatelliteImage listing download scp ssh = ((pushToEpaper scp ssh).1, true)) ∧
    (∀ m, listing = RunOutcome.exn m →
      pushSatelliteImage listing download scp ssh =
        ({ success := false, message := none, error := some m }, false)) ∧
    (∀ rc out err m, listing = RunOutcome.done rc out err → rc = 0 →
      pyStrip out ≠ ("") → download = RunOutcome.exn m →
      pushSatelliteImage listing download scp ssh =
        ({ success := false, message := none, error := some m }, false)) := by
  refine ⟨?_, ?_, ?_, ?_⟩
  · intro rc out err heq hfail
    subst heq
    simp only [pushSatelliteImage]
    rw [if_pos hfail]
  · intro rc out err rc2 o2 e2 heq h0 hne hdl
    subst heq
    subst hdl
    subst h0
    have hcond : ¬(((0 : ℤ) ≠ 0) ∨ pyStrip out = ("")) := by simp [hne]
    simp only [pushSatelliteImage]
    rw [if_neg hcond]
  · intro m heq
    subst heq
    rfl
  · intro rc out err m heq h0 hne hdl
    subst heq
    subst hdl
    subst h0
    have hcond : ¬(((0 : ℤ) ≠ 0) ∨ pyStrip out = ("")) := by simp [hne]
    simp only [pushSatelliteImage]
    rw [if_neg hcond]

/-- C6 witness: a failed listing yields the distinct no-artifact failure,
and a successful listing with a failed (non-zero exit) download still
pushes. -/
theorem satellite_push_pipeline_witness :
    pushSatelliteImage (RunOutcome.done 1 ("") ("no dir")) (RunOutcome.done 0 ("") (""))
        (RunOutcome.done 0 ("") ("")) (RunOutcome.done 0 ("") ("")) =
      ({ success := false, message := none,
         error := some ("No satellite images found") }, false) ∧
    pushSatelliteImage (RunOutcome.done 0 ("/x/a.png") ("")) (RunOutcome.done 1 ("") ("lost"))
        (RunOutcome.done 0 ("") ("")) (RunOutcome.done 0 ("") ("")) =
      ((pushToEpaper (RunOutcome.done 0 ("") ("")) (RunOutcome.done 0 ("") (""))).1, true) := by
  constructor
  · exact (satellite_push_pipeline (RunOutcome.done 1 ("") ("no dir"))
      (RunOutcome.done 0 ("") ("")) (RunOutcome.done 0 ("") ("")) (RunOutcome.done 0 ("") (""))).1
      1 ("") ("no dir") rfl (Or.inl (by decide))
  · exact (satellite_push_pipeline (RunOutcome.done 0 ("/x/a.png") ("")) (RunOutcome.done 1 ("") ("lost"))
      (RunOutcome.done 0 ("") ("")) (RunOutcome.done 0 ("") (""))).2.1
      0 ("/x/a.png") ("") 1 ("") ("lost") rfl rfl (by decide) rfl

/-- C6 counterexample: the claim as stated is false — a download that fails
by exception (timeout) aborts the pipeline with a generic error instead of
proceeding to the push. -/
theorem satellite_push_pipeline_cex :
    pushSatelliteImage (RunOutcome.done 0 ("/x/img.png") ("")) (RunOutcome.exn ("timed out"))
        (RunOutcome.done 0 ("") ("")) (RunOutcome.done 0 ("") ("")) =
      ({ success := false, message := none, error := some ("timed out") }, false) := by
  decide

/-! ## C4: aircraft parsing, filtering and truncation -/

/-- The record built for a state vector that carries both coordinates; on the
vectors that pass the position guard it agrees with `parseACRec`.  Used to
state order preservation as a `filter`/`map` equation. -/
def parseACRecTotal (s : ACState) : AircraftRec :=
  { icao24 := s.icao24
    callsign := pyStrip (s.callsign.getD (""))
    country := s.country
    lat := s.lat.getD 0
    lon := s.lon.getD 0
    alt_m := pyOr s.baro_alt (pyOr s.geo_alt 0)
    alt_ft := pyInt (pyOr s.baro_alt (pyOr s.geo_alt 0) * (3.281 : ℚ))
    velocity_kt := pyInt (pyOr s.velocity 0 * (1.944 : ℚ))
    heading := pyOr s.heading 0
    vertical_rate := pyOr s.vertical_rate 0
    on_ground := s.on_ground
    squawk := s.squawk }

/-- `parseACRec` keeps exactly the vectors passing the position guard. -/
lemma parseACRec_eq (s : ACState) :
    parseACRec s =
      if s.lon.isSome && s.lat.isSome then some (parseACRecTotal s) else none := by
  rcases h1 : s.lon with _ | lo <;> rcases h2 : s.lat with _ | la <;>
    simp [parseACRec, parseACRecTotal, h1, h2]

/-- The loop body as a filter followed by a map. -/
lemma filterMap_parseACRec (l : List ACState) :
    l.filterMap parseACRec =
      (l.filter (fun s => s.lon.isSome && s.lat.isSome)).map parseACRecTotal := by
  induction l with
  | nil => rfl
  | cons s rest ih =>
    by_cases h : (s.lon.isSome && s.lat.isSome) = true <;>
      simp [List.filterMap_cons, List.filter_cons, parseACRec_eq, h, ih]

/-- C4 (amended): `update_aircraft` truncates the upstream list to its first
50 records *first* and only then drops records missing a coordinate, keeping
upstream order (the stored list is the in-order image of the
position-carrying members of the first 50 vectors); the result therefore has
at most 50 records, and a 120-element upstream array yields exactly 50
records only when each of its first 50 vectors carries both coordinates —
records past index 50 are discarded even when earlier records were
dropped. -/
theorem aircraft_parse_truncation (st : IntelState) (t : ℚ) (states : List ACState) :
    (updateAircraft st (AircraftOutcome.payload (some states)) t).aircraft =
      ((states.take 50).filter (fun s => s.lon.isSome && s.lat.isSome)).map parseACRecTotal ∧
    (updateAircraft st (AircraftOutcome.payload (some states)) t).aircraft.length ≤ 50 ∧
    (∀ s : ACState, s.lon = none ∨ s.lat = none → parseACRec s = none) ∧
    (states.length = 120 → (∀ s ∈ states, s.lon.isSome ∧ s.lat.isSome) →
      (updateAircraft st (AircraftOutcome.payload (some states)) t).aircraft.length = 50) := by
  have hair : (updateAircraft st (AircraftOutcome.payload (some states)) t).aircraft =
      (states.take 50).filterMap parseACRec := rfl
  refine ⟨?_, ?_, ?_, ?_⟩
  · rw [hair, filterMap_parseACRec]
  · rw [hair]
    have h1 := List.length_filterMap_le parseACRec (states.take 50)
    have h2 : (states.take 50).length ≤ 50 := by simp [List.length_take]
    omega
  · intro s hs
    rcases h2 : s.lon with _ | lo <;> rcases h3 : s.lat with _ | la <;>
      simp_all [parseACRec]
  · intro h120 hall
    rw [hair, filterMap_parseACRec]
    have hfil : (states.take 50).filter (fun s => s.lon.isSome && s.lat.isSome) =
        states.take 50 := by
      rw [List.filter_eq_self]
      intro a ha
      have h := hall a (List.take_subset 50 states ha)
      simp [h.1, h.2]
    rw [hfil]
    simp only [List.length_map, List.length_take, h120]
    omega

/-- A well-formed upstream state vector carrying both coordinates. -/
def acGood : ACState :=
  { icao24 := "abc123", callsign := none, country := "US", lon := some 1, lat := some 2,
    baro_alt := none, on_ground := none, velocity := none, heading := none,
    vertical_rate := none, geo_alt := none, squawk := none }

/-- The same vector with its latitude missing. -/
def acNoPos : ACState := { acGood with lat := none }

/-- C4 witness: a 120-element upstream array whose first 50 vectors all carry
positions yields exactly 50 records. -/
theorem aircraft_parse_truncation_witness :
    (List.replicate 120 acGood).length = 120 ∧
    (updateAircraft initState
      (AircraftOutcome.payload (some (List.replicate 120 acGood))) 0).aircraft.length = 50 := by
  refine ⟨by decide, ?_⟩
  exact (aircraft_parse_truncation initState 0 (List.replicate 120 acGood)).2.2.2
    (by decide) (by decide)

/-- C4 counterexample: the claim as stated is false — filtering happens after
the cut to 50, so a 120-element upstream array whose first record misses its
latitude yields 49 records, not 50. -/
theorem aircraft_parse_truncation_cex :
    (acNoPos :: List.replicate 119 acGood).length = 120 ∧
    (updateAircraft initState
      (AircraftOutcome.payload (some (acNoPos :: List.replicate 119 acGood))) 0).aircraft.length
      = 49 := by
  constructor
  · decide
  · decide

/-! ## C10: totality of the stored aircraft fields -/

/-- C10: every record stored by `update_aircraft` comes from one of the first
50 upstream vectors, carries both coordinates, and has every numeric field
defined by the `or`-coercions of the source (`None` falls to the next
alternative and finally to `0`; the altitude falls back from barometric to
geometric), with the callsign stripped of surrounding whitespace after a
`None`-to-empty-string coercion. -/
theorem aircraft_record_fields (st : IntelState) (t : ℚ) (states : Option (List ACState))
    (r : AircraftRec) (hr : r ∈ (updateAircraft st (AircraftOutcome.payload states) t).aircraft) :
    ∃ s, s ∈ (states.getD []).take 50 ∧ s.lon.isSome ∧ s.lat.isSome ∧
      r.callsign = pyStrip (s.callsign.getD ("")) ∧
      r.alt_m = pyOr s.baro_alt (pyOr s.geo_alt 0) ∧
      r.alt_ft = pyInt (pyOr s.baro_alt (pyOr s.geo_alt 0) * (3.281 : ℚ)) ∧
      r.velocity_kt = pyInt (pyOr s.velocity 0 * (1.944 : ℚ)) ∧
      r.heading = pyOr s.heading 0 ∧
      r.vertical_rate = pyOr s.vertical_rate 0 ∧
      r.on_ground = s.on_ground ∧ r.squawk = s.squawk ∧
      r.icao24 = s.icao24 ∧ r.country = s.country := by
  have hr2 : r ∈ ((states.getD []).take 50).filterMap parseACRec := hr
  rw [List.mem_filterMap] at hr2
  obtain ⟨s, hs, hps⟩ := hr2
  rw [parseACRec_eq] at hps
  by_cases hc : (s.lon.isSome && s.lat.isSome) = true
  · rw [if_pos hc] at hps
    injection hps with hps
    subst hps
    rw [Bool.and_eq_true] at hc
    exact ⟨s, hs, hc.1, hc.2, rfl, rfl, rfl, rfl, rfl, rfl, rfl, rfl, rfl, rfl⟩
  · rw [if_neg hc] at hps
    cases hps

/-- A concrete upstream vector exercising the coercions. -/
def acSample : ACState :=
  { icao24 := "a835af", callsign := some (" UAL10 "), country := "US",
    lon := some 10, lat := some 20, baro_alt := some 1000, on_ground := some false,
    velocity := some 100, heading := some 90, vertical_rate := some 0,
    geo_alt := none, squawk := none }

/-- C10 witness: the field equations at a concrete stored record. -/
theorem aircraft_record_fields_witness :
    ∃ s, s ∈ ((some [acSample] : Option (List ACState)).getD []).take 50 ∧
      s.lon.isSome ∧ s.lat.isSome ∧
      (parseACRecTotal acSample).callsign = pyStrip (s.callsign.getD ("")) ∧
      (parseACRecTotal acSample).alt_m = pyOr s.baro_alt (pyOr s.geo_alt 0) ∧
      (parseACRecTotal acSample).alt_ft =
        pyInt (pyOr s.baro_alt (pyOr s.geo_alt 0) * (3.281 : ℚ)) ∧
      (parseACRecTotal acSample).velocity_kt = pyInt (pyOr s.velocity 0 * (1.944 : ℚ)) ∧
      (parseACRecTotal acSample).heading = pyOr s.heading 0 ∧
      (parseACRecTotal acSample).vertical_rate = pyOr s.vertical_rate 0 ∧
      (parseACRecTotal acSample).on_ground = s.on_ground ∧
      (parseACRecTotal acSample).squawk = s.squawk ∧
      (parseACRecTotal acSample).icao24 = s.icao24 ∧
      (parseACRecTotal acSample).country = s.country :=
  aircraft_record_fields initState 0 (some [acSample]) (parseACRecTotal acSample)
    (List.Mem.head _)

/-! ## C9: the log tail is bounded by 10 lines -/

/-- `l[-n:]` has at most `n` elements. -/
lemma lastN_length_le {α : Type} (n : ℕ) (l : List α) : (lastN n l).length ≤ n := by
  simp only [lastN, List.length_drop]
  omega

/-- C9: in every reachable state the stored log tail holds at most 10 lines,
and every successful `update_sdr_status` stores exactly the last 10 parsed
log lines (in parsed order, newest last). -/
theorem sdr_log_bounded :
    (∀ st, Reachable st → st.sdr_log.length ≤ 10) ∧
    (∀ st t stdout r, sdrRunning stdout = some r →
      (updateSdrStatus st (SdrOutcome.done 0 stdout) t).sdr_log =
        lastN 10 (sdrLogLines stdout)) := by
  constructor
  · intro st h
    induction h with
    | init => simp [initState]
    | iss st o t hr ih =>
      rw [(updateIssPosition_untouched st o t).1]
      exact ih
    | crew st o t hr ih =>
      rw [(updateIssCrew_untouched st o t).1]
      exact ih
    | passes st o t hr ih =>
      rw [(updateIssPasses_untouched st o t).1]
      exact ih
    | sdr st o t hr ih =>
      rcases o with _ | ⟨rc, stdout⟩
      · exact ih
      · by_cases hrc : rc = 0
        · subst hrc
          rcases hrun : sdrRunning stdout with _ | r
          · simpa [updateSdrStatus, hrun] using ih
          · have hlog : (updateSdrStatus st (SdrOutcome.done 0 stdout) t).sdr_log =
                lastN 10 (sdrLogLines stdout) := by simp [updateSdrStatus, hrun]
            rw [hlog]
            exact lastN_length_le 10 _
        · have heq : updateSdrStatus st (SdrOutcome.done rc stdout) t = st := by
            simp [updateSdrStatus, hrc]
          rw [heq]
          exact ih
    | aircraft st o t hr ih =>
      rw [(updateAircraft_untouched st o t).1]
      exact ih
  · intro st t stdout r h
    simp [updateSdrStatus, h]

/-- C9 witness: the bound in the initial state, and the truncation equation
at a concrete successful fetch. -/
theorem sdr_log_bounded_witness :
    initState.sdr_log.length ≤ 10 ∧
    sdrRunning ("line one\nline two---SDR_STATUS---2") = some 2 ∧
    (updateSdrStatus initState
        (SdrOutcome.done 0 ("line one\nline two---SDR_STATUS---2")) 3).sdr_log =
      lastN 10 (sdrLogLines ("line one\nline two---SDR_STATUS---2")) := by
  refine ⟨sdr_log_bounded.1 initState Reachable.init, by decide, ?_⟩
  exact sdr_log_bounded.2 initState 3 ("line one\nline two---SDR_STATUS---2") 2 (by decide)

/-! ## C5: crew-manifest cadence gating -/

/-- Either branch of the pass-prediction gate leaves the crew stamp alone. -/
lemma passStep_crew (st : IntelState) (b : Prop) [Decidable b] (o : PassesOutcome) (t : ℚ) :
    (if b then updateIssPasses st o t else st).last_update.iss_crew =
      st.last_update.iss_crew := by
  split
  · exact (updateIssPasses_untouched st o t).2.2.2.2.2.2.1
  · rfl

/-- Either branch of the aircraft gate leaves the crew stamp alone. -/
lemma acStep_crew (st : IntelState) (b : Prop) [Decidable b] (o : AircraftOutcome) (t : ℚ) :
    (if b then updateAircraft st o t else st).last_update.iss_crew =
      st.last_update.iss_crew := by
  split
  · exact (updateAircraft_untouched st o t).2.2.2.2.2.2.1
  · rfl

/-- With the crew stamp at 0, one iteration invokes the crew fetch exactly
when its clock reading exceeds 600, and an iteration that does not invoke it
leaves the stamp at 0. -/
lemma schedulerIter_crew (st : IntelState) (i : IterInput)
    (h0 : st.last_update.iss_crew = some 0) :
    (schedulerIter st i).2 = decide (i.now > 600) ∧
    (i.now ≤ 600 → (schedulerIter st i).1.last_update.iss_crew = some 0) := by
  have h1 := (updateIssPosition_untouched st i.issO i.issT).2.2.2.2.2.1
  have h2 := (updateSdrStatus_untouched (updateIssPosition st i.issO i.issT)
    i.sdrO i.sdrT).2.2.2.2.2.1
  have hcrew2 : (updateSdrStatus (updateIssPosition st i.issO i.issT) i.sdrO
      i.sdrT).last_update.iss_crew = some 0 := by rw [h2, h1, h0]
  have hflag : (schedulerIter st i).2 =
      decide (i.now - ((updateSdrStatus (updateIssPosition st i.issO i.issT) i.sdrO
        i.sdrT).last_update.iss_crew.getD 0) > 600) := rfl
  constructor
  · rw [hflag, hcrew2]
    norm_num
  · intro hle
    have hnot : ¬(i.now - ((updateSdrStatus (updateIssPosition st i.issO i.issT) i.sdrO
        i.sdrT).last_update.iss_crew.getD 0) > 600) := by
      rw [hcrew2]
      simp only [Option.getD_some, sub_zero]
      exact not_lt.mpr hle
    simp only [schedulerIter, decide_eq_true_eq]
    simp only [eq_false hnot, if_false]
    rw [acStep_crew, passStep_crew]
    exact hcrew2

/-- `schedulerRun` over an appended input list splits into two runs. -/
lemma schedulerRun_append (st : IntelState) (xs ys : List IterInput) :
    (schedulerRun st (xs ++ ys)).1 = (schedulerRun (schedulerRun st xs).1 ys).1 ∧
    (schedulerRun st (xs ++ ys)).2 =
      (schedulerRun st xs).2 ++ (schedulerRun (schedulerRun st xs).1 ys).2 := by
  induction xs generalizing st with
  | nil => exact ⟨rfl, rfl⟩
  | cons i rest ih =>
    constructor
    · show (schedulerRun (schedulerIter st i).1 (rest ++ ys)).1 = _
      rw [(ih (schedulerIter st i).1).1]
      rfl
    · show (schedulerIter st i).2 :: (schedulerRun (schedulerIter st i).1 (rest ++ ys)).2 = _
      rw [(ih (schedulerIter st i).1).2]
      rfl

/-- Over a run whose clock readings never exceed 600, a crew stamp of 0 is
never refreshed: no iteration invokes the crew fetch and the stamp stays 0. -/
lemma crew_never_due :
    ∀ (inputs : List IterInput) (st : IntelState), st.last_update.iss_crew = some 0 →
      (∀ i ∈ inputs, i.now ≤ 600) →
      (∀ b ∈ (schedulerRun st inputs).2, b = false) ∧
      (schedulerRun st inputs).1.last_update.iss_crew = some 0 := by
  intro inputs
  induction inputs with
  | nil =>
    intro st h0 _
    refine ⟨?_, h0⟩
    intro b hb
    simp [schedulerRun] at hb
  | cons i rest ih =>
    intro st h0 hall
    have hi : i.now ≤ 600 := hall i (List.mem_cons_self i rest)
    obtain ⟨hflag, hstamp⟩ := schedulerIter_crew st i h0
    have hstamp0 := hstamp hi
    have hrest := ih (schedulerIter st i).1 hstamp0
      (fun j hj => hall j (List.mem_cons_of_mem i hj))
    constructor
    · intro b hb
      have hb2 : b ∈ (schedulerIter st i).2 ::
          (schedulerRun (schedulerIter st i).1 rest).2 := hb
      rcases List.mem_cons.mp hb2 with h | h
      · rw [h, hflag]
        exact decide_eq_false (not_lt.mpr hi)
      · exact hrest.1 b h
    · exact hrest.2

/-- C5: with the crew manifest stamped at time 0, no iteration whose clock
reading satisfies `now ≤ 600` invokes the crew fetch, and the first
iteration with `now > 600` (e.g. at `t = 601`) does invoke it. -/
theorem crew_cadence_gating (st : IntelState) (inputs : List IterInput) (j : IterInput)
    (h0 : st.last_update.iss_crew = some 0)
    (hall : ∀ i ∈ inputs, i.now ≤ 600) (hj : 600 < j.now) :
    (∀ b ∈ (schedulerRun st inputs).2, b = false) ∧
    (schedulerRun st (inputs ++ [j])).2.getLast? = some true := by
  obtain ⟨hflags, hstamp⟩ := crew_never_due inputs st h0 hall
  refine ⟨hflags, ?_⟩
  rw [(schedulerRun_append st inputs [j]).2]
  have hsingle : (schedulerRun (schedulerRun st inputs).1 [j]).2 =
      [(schedulerIter (schedulerRun st inputs).1 j).2] := rfl
  rw [hsingle, (schedulerIter_crew (schedulerRun st inputs).1 j hstamp).1,
    decide_eq_true hj]
  simp [List.getLast?_concat]

/-- One scheduler-iteration input whose every oracle fails, read at clock
time `q`. -/
def iterAt (q : ℚ) : IterInput :=
  { issO := IssOutcome.netFail, issT := q, sdrO := SdrOutcome.exn, sdrT := q, now := q,
    crewO := CrewOutcome.netFail, crewT := q, passesO := PassesOutcome.netFail, passesT := q,
    acO := AircraftOutcome.netFail, acT := q }

/-- The state after a crew fetch that succeeded at time 0. -/
def crewStampedState : IntelState :=
  { initState with last_update := { initState.last_update with iss_crew := some 0 } }

/-- C5 witness: iterations at clock times 5, 300 and 600 never invoke the
crew fetch; appending an iteration at 601 invokes it. -/
theorem crew_cadence_gating_witness :
    (∀ b ∈ (schedulerRun crewStampedState [iterAt 5, iterAt 300, iterAt 600]).2, b = false) ∧
    (schedulerRun crewStampedState
        ([iterAt 5, iterAt 300, iterAt 600] ++ [iterAt 601])).2.getLast? = some true :=
  crew_cadence_gating crewStampedState [iterAt 5, iterAt 300, iterAt 600] (iterAt 601)
    rfl (by decide) (by decide)

/-! ## C8: haversine properties -/

/-- `atan2(0, 1) = 0`. -/
lemma atan2_zero_one : atan2 0 1 = 0 := by
  unfold atan2
  rw [if_pos one_pos]
  norm_num [Real.arctan_zero]

/-- `atan2(1, 0) = pi/2`. -/
lemma atan2_one_zero : atan2 1 0 = Real.pi / 2 := by
  unfold atan2
  rw [if_neg (lt_irrefl (0 : ℝ)), if_neg (lt_irrefl (0 : ℝ)), if_pos one_pos]

/-- C8: for every valid coordinate pair, the haversine distance of
`calculate_iss_distance` from a point to itself is 0, the distance is
symmetric in its endpoints, and the distance to the antipodal point is
within 1 km of 20015 km (it equals `6371 * pi`). -/
theorem haversine_properties (lat lon : ℝ)
    (h1 : -90 ≤ lat) (h2 : lat ≤ 90) (h3 : -180 ≤ lon) (h4 : lon ≤ 180) :
    haversineKm lat lon lat lon = 0 ∧
    (∀ lat2 lon2, haversineKm lat lon lat2 lon2 = haversineKm lat2 lon2 lat lon) ∧
    |haversineKm lat lon (-lat) (lon + 180) - 20015| < 1 := by
  refine ⟨?_, ?_, ?_⟩
  · have hA : havA lat lon lat lon = 0 := by
      unfold havA
      simp
    unfold haversineKm
    rw [hA, Real.sqrt_zero, sub_zero, Real.sqrt_one, atan2_zero_one]
    norm_num
  · intro lat2 lon2
    have key : ∀ x y : ℝ, Real.sin ((x - y) / 2) ^ 2 = Real.sin ((y - x) / 2) ^ 2 := by
      intro x y
      have h : (x - y) / 2 = -((y - x) / 2) := by ring
      rw [h, Real.sin_neg, neg_sq]
    have hA : havA lat lon lat2 lon2 = havA lat2 lon2 lat lon := by
      unfold havA
      rw [key (lat2 * Real.pi / 180) (lat * Real.pi / 180),
          key (lon2 * Real.pi / 180) (lon * Real.pi / 180)]
      ring
    unfold haversineKm
    rw [hA]
  · have hA : havA lat lon (-lat) (lon + 180) = 1 := by
      unfold havA
      have e1 : ((-lat) * Real.pi / 180 - lat * Real.pi / 180) / 2 =
          -(lat * Real.pi / 180) := by ring
      have e2 : ((lon + 180) * Real.pi / 180 - lon * Real.pi / 180) / 2 = Real.pi / 2 := by
        ring
      have e3 : (-lat) * Real.pi / 180 = -(lat * Real.pi / 180) := by ring
      rw [e1, e2, e3, Real.sin_neg, Real.cos_neg, Real.sin_pi_div_two]
      have hsc := Real.sin_sq_add_cos_sq (lat * Real.pi / 180)
      nlinarith [hsc]
    unfold haversineKm
    rw [hA]
    have h11 : (1 : ℝ) - 1 = 0 := by norm_num
    rw [h11, Real.sqrt_zero, Real.sqrt_one, atan2_one_zero]
    have hpi1 : (3.141592 : ℝ) < Real.pi := Real.pi_gt_d6
    have hpi2 : Real.pi < (3.141593 : ℝ) := Real.pi_lt_d6
    rw [abs_lt]
    constructor <;> nlinarith

/-- C8 witness: the three properties at the concrete point `(0, 0)`. -/
theorem haversine_properties_witness :
    ((-90 : ℝ) ≤ 0 ∧ (0 : ℝ) ≤ 90) ∧
    haversineKm 0 0 0 0 = 0 ∧
    |haversineKm 0 0 (-0) (0 + 180) - 20015| < 1 := by
  have h := haversine_properties 0 0 (by norm_num) (by norm_num) (by norm_num) (by norm_num)
  exact ⟨⟨by norm_num, by norm_num⟩, h.1, h.2.2⟩
